import Mathlib

/-!
Shallow embedding of the HABApp home-assistant connection core
(src/HABApp/homeassistant): the module-level connection state of
connection_handler/http_connection.py, its HTTP verb wrappers, the
offline transition, response checking, the handshake (try_uuid), the
SSE stream consumer, the event decoder (map_events.py) and the dispatch
bridge (connection_logic/connection.py).

Side effects (callbacks invoked, tasks cancelled or scheduled, log
lines) are recorded as an explicit trace of actions; the module-level
globals become fields of a ConnState record that every operation
threads through.
-/

namespace HA

/-- A Python exception, as classified by the connection code. -/
inductive PyErr where
  /-- HomeassistantConnectionNotSetUpError: no HTTP prefix configured yet. -/
  | notConfigured
  /-- HomeassistantNotReadyYet: server answered with status 500 or above. -/
  | notReady
  /-- ExpectedSuccessFromHomeassistant: status 400 or above where success was mandatory. -/
  | unexpectedFailure
  /-- HomeassistantDisconnectedError: transport failure classified as a disconnect. -/
  | disconnected
  /-- The original non-disconnect transport exception, re-raised by check_response. -/
  | reraised
  /-- TypeError, e.g. subscripting None or a str with a str key. -/
  | typeError
  /-- KeyError from a failed dict lookup. -/
  | keyError
  /-- AttributeError, e.g. calling a method on None. -/
  | attributeError
  /-- AssertionError from a failed assert statement. -/
  | assertionError
  /-- ValueError raised by load_json on a malformed document. -/
  | jsonDecodeError
  /-- ValueError raised by get_event for an unregistered frame type
  (message Unknown Event: type). -/
  | unknownEvent (tp : String)
deriving DecidableEq

/-- An asyncio future/task handle; we track only whether it is done. -/
structure TaskH where
  done : Bool
deriving DecidableEq

/-- Observable side effects of the connection code, in program order. -/
inductive Act where
  /-- FUT_SSE.cancel() was called. -/
  | cancelSse
  /-- FUT_UUID.cancel() was called. -/
  | cancelUuid
  /-- The ON_DISCONNECTED callback was invoked. -/
  | cbDisconnected
  /-- The ON_CONNECTED callback was invoked. -/
  | cbConnected
  /-- A new try_uuid task was scheduled into FUT_UUID. -/
  | scheduleUuid
  /-- A new start_sse_event_listener task was scheduled into FUT_SSE. -/
  | startSse
  /-- HTTP_SESSION.close() was awaited. -/
  | closeSession
  /-- CONNECT_WAIT.wait() suspended the caller for n seconds. -/
  | waited (n : Nat)
deriving DecidableEq

/-- The module-level globals of http_connection.py, as one record.
IS_ONLINE, IS_READ_ONLY, HTTP_PREFIX, HTTP_SESSION, FUT_UUID, FUT_SSE
become fields; CONNECT_WAIT (the WaitBetweenConnects instance, whose
class is not part of the embedded sources) is carried as its current
interval waitTime together with its configured minimum wbFloor and
maximum wbCeil. -/
structure ConnState where
  isOnline : Bool
  readOnly : Bool
  httpBase : Option String
  session : Option Nat
  futUuid : Option TaskH
  futSse : Option TaskH
  waitTime : Nat
  wbFloor : Nat
  wbCeil : Nat
deriving DecidableEq

/-- Result of one of the HTTP verb wrappers get/post/put/delete, seen
from the caller: an exception, a silent no-op returning None, or an
actual network request handed to the session. -/
inductive HttpResult where
  | raised (e : PyErr)
  | noop
  | request (method : String) (url : String)
deriving DecidableEq

/-- Number of network calls an HttpResult stands for. -/
def netCalls : HttpResult → Nat
  | .request _ _ => 1
  | _ => 0

/-- Embedding of get (http_connection.py lines 45-53): raise
HomeassistantConnectionNotSetUpError without a prefix, assert the url
has no leading slash, then always issue the request. -/
def get (s : ConnState) (url : String) : HttpResult :=
  match s.httpBase with
  | none => .raised .notConfigured
  | some base =>
    if url.startsWith "/" then .raised .assertionError
    else .request "GET" (base ++ "/rest/" ++ url ++ "/")

/-- Embedding of post (lines 56-79): prefix check first, then the
read-only / offline short circuit returning None, then the request. -/
def post (s : ConnState) (url : String) : HttpResult :=
  match s.httpBase with
  | none => .raised .notConfigured
  | some base =>
    if s.readOnly || !s.isOnline then .noop
    else if url.startsWith "/" then .raised .assertionError
    else .request "POST" (base ++ "/rest/" ++ url ++ "/")

/-- Embedding of put (lines 82-105): same shape as post. -/
def put (s : ConnState) (url : String) : HttpResult :=
  match s.httpBase with
  | none => .raised .notConfigured
  | some base =>
    if s.readOnly || !s.isOnline then .noop
    else if url.startsWith "/" then .raised .assertionError
    else .request "PUT" (base ++ "/rest/" ++ url ++ "/")

/-- Embedding of delete (lines 108-124): same shape as post. -/
def delete (s : ConnState) (url : String) : HttpResult :=
  match s.httpBase with
  | none => .raised .notConfigured
  | some base =>
    if s.readOnly || !s.isOnline then .noop
    else if url.startsWith "/" then .raised .assertionError
    else .request "DELETE" (base ++ "/rest/" ++ url ++ "/")

/-- Embedding of set_offline (lines 127-147). Already offline: plain
return. Otherwise clear IS_ONLINE, cancel a not-done FUT_SSE and drop
the handle, invoke ON_DISCONNECTED, then cancel a not-done FUT_UUID and
schedule a fresh try_uuid. FUT_UUID is dereferenced without a None
check, so a None handle raises AttributeError after the callback ran;
the returned state reflects the mutations made before the raise. -/
def set_offline (s : ConnState) : ConnState × List Act × Option PyErr :=
  if !s.isOnline then (s, [], none)
  else
    let s1 : ConnState := { s with isOnline := false }
    let sseStep : ConnState × List Act :=
      match s1.futSse with
      | none => (s1, [])
      | some f =>
        ({ s1 with futSse := none }, if f.done then [] else [Act.cancelSse])
    let s2 := sseStep.1
    let t1 := sseStep.2 ++ [Act.cbDisconnected]
    match s2.futUuid with
    | none => (s2, t1, some .attributeError)
    | some f =>
      ({ s2 with futUuid := some ⟨false⟩ },
       t1 ++ (if f.done then [] else [Act.cancelUuid]) ++ [Act.scheduleUuid],
       none)

instance {ε α : Type} [DecidableEq ε] [DecidableEq α] : DecidableEq (Except ε α) :=
  fun x y =>
    match x, y with
    | .ok a, .ok b => if h : a = b then .isTrue (by simp [h]) else .isFalse (by simp [h])
    | .error a, .error b => if h : a = b then .isTrue (by simp [h]) else .isFalse (by simp [h])
    | .ok _, .error _ => .isFalse (by simp)
    | .error _, .ok _ => .isFalse (by simp)

/-- Outcome of check_response: the state after any offline transition,
the recorded side effects, the result handed to the caller (the status
of the returned response, or the raised exception) and whether the
warning log line for an error status was emitted. -/
structure CheckResult where
  state : ConnState
  trace : List Act
  result : Except PyErr Nat
  loggedWarning : Bool
deriving DecidableEq

/-- Embedding of check_response (lines 163-203). The awaited request is
given as its outcome: an exception already classified by
is_disconnect_exception (error true means it is one of the
disconnect-class exception types, in which case is_disconnect_exception
has already called set_offline), or a response with its status. Status
at least 500 triggers set_offline and HomeassistantNotReadyYet; with
disconnect_on_error, status at least 400 triggers set_offline and
ExpectedSuccessFromHomeassistant; otherwise the response is returned and
a warning is logged for status at least 300 unless the status is 404 and
log_404 is false. -/
def check_response (s : ConnState) (resp : Except Bool Nat)
    (log_404 : Bool) (disconnect_on_error : Bool) : CheckResult :=
  match resp with
  | .error isDisc =>
    if isDisc then
      let off := set_offline s
      { state := off.1, trace := off.2.1,
        result := .error (match off.2.2 with
                          | some e => e
                          | none => .disconnected),
        loggedWarning := false }
    else
      { state := s, trace := [], result := .error .reraised, loggedWarning := false }
  | .ok status =>
    if 500 ≤ status then
      let off := set_offline s
      { state := off.1, trace := off.2.1,
        result := .error (match off.2.2 with
                          | some e => e
                          | none => .notReady),
        loggedWarning := false }
    else if disconnect_on_error && 400 ≤ status then
      let off := set_offline s
      { state := off.1, trace := off.2.1,
        result := .error (match off.2.2 with
                          | some e => e
                          | none => .unexpectedFailure),
        loggedWarning := false }
    else
      { state := s, trace := [], result := .ok status,
        loggedWarning := decide (300 ≤ status) && !(status == 404 && !log_404) }

/-- Embedding of stop_connection (lines 206-221): cancel and drop a
not-done FUT_UUID, cancel and drop a not-done FUT_SSE, then close and
drop the session if one exists. Nothing here touches IS_ONLINE. -/
def stop_connection (s : ConnState) : ConnState × List Act :=
  let uuidStep : ConnState × List Act :=
    match s.futUuid with
    | some f =>
      if !f.done then ({ s with futUuid := none }, [Act.cancelUuid]) else (s, [])
    | none => (s, [])
  let s1 := uuidStep.1
  let sseStep : ConnState × List Act :=
    match s1.futSse with
    | some f =>
      if !f.done then ({ s1 with futSse := none }, [Act.cancelSse]) else (s1, [])
    | none => (s1, [])
  let s2 := sseStep.1
  match s2.session with
  | some _ =>
    ({ s2 with session := none }, uuidStep.2 ++ sseStep.2 ++ [Act.closeSession])
  | none => (s2, uuidStep.2 ++ sseStep.2)

/-- Embedding of start_connection (lines 224-260): first stop_connection,
then with an empty host clear the prefix and return; otherwise pick the
scheme from the CA-certificate setting, open a fresh session and
schedule try_uuid. -/
def start_connection (s : ConnState) (host : String) (port : Nat)
    (caCert : String) : ConnState × List Act :=
  let stopped := stop_connection s
  let s1 := stopped.1
  if host = "" then ({ s1 with httpBase := none }, stopped.2)
  else
    let scheme := if caCert ≠ "" then "wss://" else "ws://"
    ({ s1 with
        httpBase := some (scheme ++ host ++ ":" ++ toString port),
        session := some 1,
        futUuid := some ⟨false⟩ },
     stopped.2 ++ [Act.scheduleUuid])

/-- A Python value as far as the handshake needs it: the decoded JSON
body of the root-info response and the values reached from it. -/
inductive PyVal where
  | pyNone
  | str (s : String)
  | num (n : Int)
  | dict (entries : List (String × PyVal))

/-- Lookup in an association list, first binding wins; models both
dict.get (giving None as Option.none) and the item registry lookup. -/
def lookupName {α : Type} : List (String × α) → String → Option α
  | [], _ => none
  | (k, v) :: rest, key => if k = key then some v else lookupName rest key

/-- Python subscription v[k] with a string key on an optional value:
None and non-dict values raise TypeError, a dict without the key raises
KeyError. -/
def subscript (v : Option PyVal) (k : String) : Except PyErr PyVal :=
  match v with
  | none => .error .typeError
  | some (.dict d) =>
    match lookupName d k with
    | some x => .ok x
    | none => .error .keyError
  | some _ => .error .typeError

/-- Modelled from the spec: the WaitBetweenConnects class of
http_connection_waiter.py is not among the embedded sources; per the
spec its wait() suspends the caller for the current interval and then
advances the deterministic doubling policy, capped at the configured
ceiling (the configured floor is the initial and reset value). -/
def waiterAdvance (s : ConnState) : Nat :=
  min (max s.wbFloor (2 * s.waitTime)) s.wbCeil

/-- Modelled from the spec: resetting the backoff state puts the
interval back at the configured floor. -/
def waiterReset (s : ConnState) : Nat := s.wbFloor

/-- Embedding of try_uuid (lines 324-361). The two probe requests are
given as their outcomes (async_get_uuid yielding the UUID text,
async_get_root yielding the decoded root dict, with 404 already mapped
to the empty dict by async_get_root). First CONNECT_WAIT.wait()
suspends for the current interval and advances the backoff state. Any
exception from the probes schedules a fresh try_uuid and returns.
Otherwise the code logs the Connected line, binds
info = root.get(ha_version) and formats info[ha_version] into the
version log line; that subscription is outside the try block, so its
TypeError or KeyError escapes try_uuid before IS_ONLINE is set, the SSE
listener is started or ON_CONNECTED is invoked, and without scheduling
a retry. When the subscription succeeds the state flips online, a
present FUT_SSE is cancelled unconditionally, a new listener task is
scheduled and ON_CONNECTED is invoked. -/
def try_uuid (s : ConnState) (uuidRes : Except PyErr String)
    (rootRes : Except PyErr (List (String × PyVal))) :
    ConnState × List Act × Option PyErr :=
  let waitedFor := s.waitTime
  let s0 : ConnState := { s with waitTime := waiterAdvance s }
  let tw := [Act.waited waitedFor]
  match uuidRes, rootRes with
  | .error _, _ =>
    ({ s0 with futUuid := some ⟨false⟩ }, tw ++ [Act.scheduleUuid], none)
  | .ok _, .error _ =>
    ({ s0 with futUuid := some ⟨false⟩ }, tw ++ [Act.scheduleUuid], none)
  | .ok _, .ok root =>
    let info := lookupName root "ha_version"
    match subscript info "ha_version" with
    | .error e => (s0, tw, some e)
    | .ok _ =>
      let s1 : ConnState := { s0 with isOnline := true }
      let cancelT : List Act :=
        match s1.futSse with
        | some _ => [Act.cancelSse]
        | none => []
      ({ s1 with futSse := some ⟨false⟩ },
       tw ++ cancelT ++ [Act.startSse, Act.cbConnected], none)

/-- The spec's ConnectionState invariant: online implies a session is
set, and the active stream handle is set only while online. -/
def connInv (s : ConnState) : Bool :=
  (!s.isOnline || s.session.isSome) && (!s.futSse.isSome || s.isOnline)

/-- A typed domain event as produced by the event constructors; only
the value-update kind is inspected by the dispatch bridge, everything
else is published directly. -/
inductive DomainEvent where
  | valueUpdate (name : String) (value : PyVal)
  | other (name : String) (tag : String) (payload : PyVal)

/-- An entry of EVENT_LIST in map_events.py: an event class with its
name (the lookup key of the dict comprehension) and its from_dict
constructor taking the topic and the decoded payload. -/
structure EventClass where
  name : String
  fromDict : String → PyVal → DomainEvent

/-- Embedding of EVENT_LIST (map_events.py line 5): the list literal in
the source is empty. -/
def EVENT_LIST : List EventClass := []

/-- Embedding of the module-level lookup dict of map_events.py keyed by
class name. -/
def event_lookup : List (String × EventClass) :=
  EVENT_LIST.map (fun k => (k.name, k))

/-- One frame after the stream consumer decoded its JSON body: the dict
with type, topic and payload (the payload itself still a JSON-encoded
string). -/
structure EventDict where
  tp : String
  topic : String
  payload : String

/-- Embedding of get_event (map_events.py lines 10-24): normalize the
NONE sentinel in the payload string to null, decode it as JSON (a
failure of load_json, given here as the abstract decoder returning
none, propagates as the json ValueError), then look the declared type
up in the constructor registry; a missing key raises the
Unknown Event ValueError. -/
def get_event (decodeJson : String → Option PyVal) (d : EventDict) :
    Except PyErr DomainEvent :=
  let pStr := d.payload.replace "\"NONE\"" "null"
  match decodeJson pStr with
  | none => .error .jsonDecodeError
  | some payload =>
    match lookupName event_lookup d.tp with
    | some k => .ok (k.fromDict d.topic payload)
    | none => .error (.unknownEvent d.tp)

/-- The item registry: item name to cached value. Items.get_item raises
ItemNotFoundException for a missing name, modelled by the none case of
lookupName. -/
def Registry := List (String × PyVal)

/-- Observable steps of the dispatch bridge, in program order. -/
inductive DispatchAct where
  /-- item.set_value was called on the registry item of that name. -/
  | setValue (name : String) (value : PyVal)
  /-- EventBus.post_event published the event under that name. -/
  | publish (name : String) (e : DomainEvent)

/-- Number of publish steps in a dispatch trace. -/
def publishCount : List DispatchAct → Nat
  | [] => 0
  | .publish _ _ :: rest => publishCount rest + 1
  | _ :: rest => publishCount rest

/-- Embedding of item.set_value on the registry: replace the cached
value of every binding of that name. -/
def setVal (reg : Registry) (n : String) (v : PyVal) : Registry :=
  (reg : List (String × PyVal)).map (fun p => if p.1 = n then (p.1, v) else p)

/-- Embedding of the dispatch part of on_sse_event
(connection_logic/connection.py lines 50-65), taking the event returned
by get_event: a value-update event whose name is in the registry gets
its cached value set and is then published inside the try block; a
missing name raises ItemNotFoundException, which the except clause
swallows so that the event is still published by the final post_event;
every other event kind skips the isinstance branch and is published
directly. -/
def dispatch_event (reg : Registry) (e : DomainEvent) :
    Registry × List DispatchAct :=
  match e with
  | .valueUpdate n v =>
    match lookupName reg n with
    | some _ => (setVal reg n v, [.setValue n v, .publish n (.valueUpdate n v)])
    | none => (reg, [.publish n (.valueUpdate n v)])
  | .other n tag p => (reg, [.publish n (.other n tag p)])

/-- Embedding of on_sse_event as wired into the stream consumer: the
ignore-exception wrapper is modelled from the spec (the decorator is
not among the embedded sources; per the spec any exception raised while
handling one event is caught and logged and never crashes the
consumer), so a get_event failure yields no dispatch steps and the
raised error is reported alongside for observation. -/
def on_sse_event (decodeJson : String → Option PyVal) (reg : Registry)
    (d : EventDict) : Registry × List DispatchAct × Option PyErr :=
  match get_event decodeJson d with
  | .error e => (reg, [], some e)
  | .ok e =>
    let r := dispatch_event reg e
    (r.1, r.2, none)

/-- Embedding of the frame loop of start_sse_event_listener
(http_connection.py lines 279-292) over a finite prefix of the stream:
each raw frame body is decoded as JSON (the abstract frame decoder
returning none stands for the ValueError/TypeError that the except
clauses turn into continue), and every successfully decoded dict is
handed to the ON_SSE_EVENT callback, which never raises. The result
collects the registry threaded through the handler and the per-frame
dispatch traces of the frames that reached the handler. -/
def sse_consume (decodeFrame : String → Option EventDict)
    (decodeJson : String → Option PyVal) (reg : Registry) :
    List String → Registry × List (List DispatchAct × Option PyErr)
  | [] => (reg, [])
  | f :: rest =>
    match decodeFrame f with
    | none => sse_consume decodeFrame decodeJson reg rest
    | some d =>
      let h := on_sse_event decodeJson reg d
      let r := sse_consume decodeFrame decodeJson h.1 rest
      (r.1, (h.2.1, h.2.2) :: r.2)

/-- Number of occurrences of an action in a trace. -/
def countAct (a : Act) : List Act → Nat
  | [] => 0
  | b :: rest => (if b = a then 1 else 0) + countAct a rest

/-- A configured state with read-only mode active, used as witness input. -/
def sReadOnly : ConnState :=
  { isOnline := true, readOnly := true, httpBase := some "ws://localhost:8123",
    session := some 1, futUuid := some ⟨true⟩, futSse := some ⟨false⟩,
    waitTime := 1, wbFloor := 1, wbCeil := 180 }

/-- Concrete frame decoder for witnesses: only the body ok decodes. -/
def dfW : String → Option EventDict := fun s =>
  if s = "ok" then some ⟨"ItemStateEvent", "habapp/items/x", "1"⟩ else none

/-- Concrete payload JSON decoder for witnesses. -/
def djW : String → Option PyVal := fun _ => some (.num 1)

/-- A concrete online state with a running stream task and a finished
handshake task. -/
def sOnline : ConnState :=
  { isOnline := true, readOnly := false, httpBase := some "ws://localhost:8123",
    session := some 1, futUuid := some ⟨true⟩, futSse := some ⟨false⟩,
    waitTime := 1, wbFloor := 1, wbCeil := 180 }

/-- A configured offline state about to run the handshake, with a
pending handshake task and no stream task. -/
def sHandshake : ConnState :=
  { isOnline := false, readOnly := false, httpBase := some "ws://localhost:8123",
    session := some 1, futUuid := some ⟨false⟩, futSse := none,
    waitTime := 1, wbFloor := 1, wbCeil := 180 }

/-- An online state whose handshake and stream tasks have both finished
(the stream task completes when the server ends the subscription
normally); connInv holds here. -/
def sC8 : ConnState :=
  { isOnline := true, readOnly := false, httpBase := some "ws://localhost:8123",
    session := some 1, futUuid := some ⟨true⟩, futSse := some ⟨true⟩,
    waitTime := 1, wbFloor := 1, wbCeil := 180 }

/-- Verification harness: iterate try_uuid over a list of probe
outcomes, recording the interval the backoff timer waited before each
attempt. -/
def runAttempts (s : ConnState) :
    List (Except PyErr String × Except PyErr (List (String × PyVal))) →
    ConnState × List Nat
  | [] => (s, [])
  | a :: rest =>
    let step := try_uuid s a.1 a.2
    let t := runAttempts step.1 rest
    (t.1, s.waitTime :: t.2)

/-- Initial backoff state at the configured floor, offline, with a
pending handshake task. -/
def sC9 : ConnState :=
  { isOnline := false, readOnly := false, httpBase := some "ws://localhost:8123",
    session := some 1, futUuid := some ⟨false⟩, futSse := none,
    waitTime := 1, wbFloor := 1, wbCeil := 180 }

/-- Two failed handshake attempts followed by a fully successful one
(the root dict even carries the nested ha_version shape the version
log line needs). -/
def attemptsC9 : List (Except PyErr String × Except PyErr (List (String × PyVal))) :=
  [(.error .disconnected, .error .disconnected),
   (.error .disconnected, .error .disconnected),
   (.ok "uuid-1", .ok [("ha_version", .dict [("ha_version", .str "2023.5")])])]

/-! Theorems. -/

/-- C3: with a configured session, every mutating verb (post, put,
delete) called in read-only mode or while offline returns None and
performs zero network calls, while get always issues the request. -/
theorem C3_mutating_noop_get_always (s : ConnState) (base url : String)
    (hb : s.httpBase = some base) (h : s.readOnly = true ∨ s.isOnline = false) :
    post s url = .noop ∧ put s url = .noop ∧ delete s url = .noop ∧
    netCalls (post s url) = 0 ∧ netCalls (put s url) = 0 ∧
    netCalls (delete s url) = 0 ∧
    (url.startsWith "/" = false →
      get s url = .request "GET" (base ++ "/rest/" ++ url ++ "/") ∧
      netCalls (get s url) = 1) := by
  rcases h with h | h <;> simp [post, put, delete, get, netCalls, hb, h] <;>
    intro hs <;> simp [hs]

/-- Witness for C3 at a concrete read-only online state and url. -/
theorem C3_witness :
    post sReadOnly "items" = .noop ∧ put sReadOnly "items" = .noop ∧
    delete sReadOnly "items" = .noop ∧
    netCalls (post sReadOnly "items") = 0 ∧
    netCalls (put sReadOnly "items") = 0 ∧
    netCalls (delete sReadOnly "items") = 0 ∧
    ("items".startsWith "/" = false →
      get sReadOnly "items" =
        .request "GET" ("ws://localhost:8123" ++ "/rest/" ++ "items" ++ "/") ∧
      netCalls (get sReadOnly "items") = 1) :=
  C3_mutating_noop_get_always sReadOnly "ws://localhost:8123" "items" rfl
    (Or.inl rfl)

/-- C10: before a session is configured (no HTTP prefix), post, put and
delete raise the not-set-up error regardless of read-only mode and of
the online flag: the configuration check precedes the no-op short
circuit. -/
theorem C10_not_configured_precedes_noop (onl ro : Bool) (sess : Option Nat)
    (fu fs : Option TaskH) (w fl ce : Nat) (url : String) :
    post ⟨onl, ro, none, sess, fu, fs, w, fl, ce⟩ url = .raised .notConfigured ∧
    put ⟨onl, ro, none, sess, fu, fs, w, fl, ce⟩ url = .raised .notConfigured ∧
    delete ⟨onl, ro, none, sess, fu, fs, w, fl, ce⟩ url = .raised .notConfigured := by
  simp [post, put, delete]

/-- C4: the dispatch bridge on a value-update event updates the cached
value of a registered target and publishes afterwards (the trace is
exactly set-then-publish), skips the update and still publishes for an
unregistered target, and publishes exactly once in both cases. -/
theorem C4_value_update_dispatch (reg : Registry) (n : String) (v : PyVal) :
    dispatch_event reg (.valueUpdate n v) =
      (if (lookupName reg n).isSome
        then (setVal reg n v,
              [.setValue n v, .publish n (.valueUpdate n v)])
        else (reg, [.publish n (.valueUpdate n v)])) ∧
    publishCount (dispatch_event reg (.valueUpdate n v)).2 = 1 := by
  cases h : lookupName reg n <;> simp [dispatch_event, h, publishCount]

/-- C7: a frame whose body fails JSON decoding is dropped silently: the
consumer run over the stream with the bad frame in front equals the run
over the remaining frames, so every subsequent well-formed frame is
still decoded and forwarded and the loop never terminates early. -/
theorem C7_bad_json_frame_dropped (decodeFrame : String → Option EventDict)
    (decodeJson : String → Option PyVal) (reg : Registry) (f : String)
    (rest : List String) (h : decodeFrame f = none) :
    sse_consume decodeFrame decodeJson reg (f :: rest) =
      sse_consume decodeFrame decodeJson reg rest := by
  simp [sse_consume, h]

/-- Witness for C7 on a malformed frame followed by a well-formed one. -/
theorem C7_witness :
    dfW "bad" = none ∧
    sse_consume dfW djW [] ["bad", "ok"] = sse_consume dfW djW [] ["ok"] :=
  ⟨rfl, C7_bad_json_frame_dropped dfW djW [] "bad" ["ok"] rfl⟩

/-- C6: a frame whose declared type is not registered makes get_event
fail loudly with the unknown-event error, and the failure stays local
to that frame: the consumer records an empty dispatch with the raised
error for it and processes the rest of the stream unchanged, because
the ignore-exception wrapper around on_sse_event isolates the raise. -/
theorem C6_unknown_event_loud_and_isolated
    (decodeFrame : String → Option EventDict)
    (decodeJson : String → Option PyVal) (reg : Registry) (f : String)
    (d : EventDict) (rest : List String) (v : PyVal)
    (hf : decodeFrame f = some d)
    (hj : decodeJson (d.payload.replace "\"NONE\"" "null") = some v)
    (hl : lookupName event_lookup d.tp = none) :
    get_event decodeJson d = .error (.unknownEvent d.tp) ∧
    sse_consume decodeFrame decodeJson reg (f :: rest) =
      ((sse_consume decodeFrame decodeJson reg rest).1,
       ([], some (.unknownEvent d.tp)) ::
         (sse_consume decodeFrame decodeJson reg rest).2) := by
  have hge : get_event decodeJson d = .error (.unknownEvent d.tp) := by
    simp [get_event, hj, hl]
  exact ⟨hge, by simp [sse_consume, hf, on_sse_event, hge]⟩

/-- Witness for C6 on a frame of unregistered type followed by another
frame. -/
theorem C6_witness :
    dfW "ok" = some ⟨"ItemStateEvent", "habapp/items/x", "1"⟩ ∧
    djW ("1".replace "\"NONE\"" "null") = some (.num 1) ∧
    lookupName event_lookup "ItemStateEvent" = none ∧
    (get_event djW ⟨"ItemStateEvent", "habapp/items/x", "1"⟩ =
      .error (.unknownEvent "ItemStateEvent") ∧
     sse_consume dfW djW [] ["ok", "bad"] =
       ((sse_consume dfW djW [] ["bad"]).1,
        ([], some (.unknownEvent "ItemStateEvent")) ::
          (sse_consume dfW djW [] ["bad"]).2)) :=
  ⟨rfl, rfl, rfl,
   C6_unknown_event_loud_and_isolated dfW djW []
     "ok" ⟨"ItemStateEvent", "habapp/items/x", "1"⟩ ["bad"] (.num 1) rfl rfl rfl⟩

/-- The offline transition always leaves the online flag cleared. -/
theorem set_offline_isOnline (s : ConnState) :
    ((set_offline s).1).isOnline = false := by
  obtain ⟨onl, ro, base, sess, fu, fs, w, fl, ce⟩ := s
  cases onl <;> cases fu <;> cases fs <;> simp [set_offline]

/-- The offline transition raises nothing as long as a handshake task
handle exists whenever the connection is online. -/
theorem set_offline_no_raise (s : ConnState)
    (hu : s.isOnline = true → s.futUuid.isSome) :
    (set_offline s).2.2 = none := by
  obtain ⟨onl, ro, base, sess, fu, fs, w, fl, ce⟩ := s
  cases onl
  · cases fu <;> cases fs <;> simp [set_offline]
  · cases fu
    · exact absurd (hu rfl) (by simp)
    · cases fs <;> simp [set_offline]

/-- C2: marking the connection offline is idempotent and restarts
reconnection exactly once. Already offline, set_offline changes no
state, records no action and schedules nothing. From online, it clears
the online flag, cancels a still-running stream task and drops its
handle, invokes the disconnected callback exactly once, cancels a
not-yet-finished handshake task immediately before scheduling, and
schedules exactly one new handshake attempt. -/
theorem C2_set_offline_idempotent_restart (s : ConnState)
    (hu : s.isOnline = true → s.futUuid.isSome) :
    (s.isOnline = false → set_offline s = (s, [], none)) ∧
    (s.isOnline = true →
      ((set_offline s).1).isOnline = false ∧
      ((set_offline s).1).futSse = none ∧
      (set_offline s).2.2 = none ∧
      countAct .cbDisconnected (set_offline s).2.1 = 1 ∧
      countAct .scheduleUuid (set_offline s).2.1 = 1 ∧
      (s.futSse = some ⟨false⟩ → Act.cancelSse ∈ (set_offline s).2.1) ∧
      (s.futUuid = some ⟨false⟩ →
        ∃ t, (set_offline s).2.1 = t ++ [Act.cancelUuid, Act.scheduleUuid])) := by
  obtain ⟨onl, ro, base, sess, fu, fs, w, fl, ce⟩ := s
  cases onl
  · exact ⟨fun _ => by simp [set_offline], by simp⟩
  · refine ⟨by simp, fun _ => ?_⟩
    have hfu : fu.isSome := hu rfl
    rcases fu with _ | ⟨fd⟩
    · simp at hfu
    · rcases fs with _ | ⟨gd⟩
      · rcases fd with _ | _ <;> simp [set_offline, countAct]
        · exact ⟨[Act.cbDisconnected], by decide⟩
      · rcases fd with _ | _ <;> rcases gd with _ | _ <;>
          simp [set_offline, countAct]
        all_goals first
          | exact ⟨[Act.cbDisconnected], by decide⟩
          | exact ⟨[Act.cancelSse, Act.cbDisconnected], by decide⟩

/-- Witness for C2 at the concrete online state. -/
theorem C2_witness :
    (sOnline.isOnline = false → set_offline sOnline = (sOnline, [], none)) ∧
    (sOnline.isOnline = true →
      ((set_offline sOnline).1).isOnline = false ∧
      ((set_offline sOnline).1).futSse = none ∧
      (set_offline sOnline).2.2 = none ∧
      countAct .cbDisconnected (set_offline sOnline).2.1 = 1 ∧
      countAct .scheduleUuid (set_offline sOnline).2.1 = 1 ∧
      (sOnline.futSse = some ⟨false⟩ →
        Act.cancelSse ∈ (set_offline sOnline).2.1) ∧
      (sOnline.futUuid = some ⟨false⟩ →
        ∃ t, (set_offline sOnline).2.1 = t ++ [Act.cancelUuid, Act.scheduleUuid])) :=
  C2_set_offline_idempotent_restart sOnline (fun _ => by decide)

/-- C5: check_response on a received response. Status at least 500
fails with the not-ready error and leaves the connection offline;
otherwise, with disconnect_on_error selected, status at least 400 fails
with the unexpected-failure error and leaves the connection offline;
otherwise the status is returned with state untouched and the warning
is logged exactly for status at least 300, except 404 with logging
suppressed. -/
theorem C5_check_response_classification (s : ConnState) (status : Nat)
    (l4 de : Bool) (hu : s.isOnline = true → s.futUuid.isSome) :
    (500 ≤ status →
      (check_response s (.ok status) l4 de).result = .error .notReady ∧
      ((check_response s (.ok status) l4 de).state).isOnline = false) ∧
    (status < 500 → de = true → 400 ≤ status →
      (check_response s (.ok status) l4 de).result = .error .unexpectedFailure ∧
      ((check_response s (.ok status) l4 de).state).isOnline = false) ∧
    (status < 500 → (de = true → status < 400) →
      (check_response s (.ok status) l4 de).state = s ∧
      (check_response s (.ok status) l4 de).trace = [] ∧
      (check_response s (.ok status) l4 de).result = .ok status ∧
      ((check_response s (.ok status) l4 de).loggedWarning = true ↔
        (300 ≤ status ∧ ¬(status = 404 ∧ l4 = false)))) := by
  have hnr := set_offline_no_raise s hu
  have hio := set_offline_isOnline s
  refine ⟨fun h5 => ?_, fun h5 hde h4 => ?_, fun h5 hnot => ?_⟩
  · simp [check_response, h5, hnr, hio]
  · have h5n : ¬ 500 ≤ status := by omega
    simp [check_response, h5n, hde, h4, hnr, hio]
  · have h5n : ¬ 500 ≤ status := by omega
    cases de
    · simp [check_response, h5n]
      cases l4 <;> simp
    · have h4 : ¬ 400 ≤ status := by have := hnot rfl; omega
      simp [check_response, h5n, h4]
      cases l4 <;> simp

/-- Witness for C5 at the concrete online state and status 503. -/
theorem C5_witness :
    (500 ≤ 503 →
      (check_response sOnline (.ok 503) true false).result = .error .notReady ∧
      ((check_response sOnline (.ok 503) true false).state).isOnline = false) ∧
    (503 < 500 → false = true → 400 ≤ 503 →
      (check_response sOnline (.ok 503) true false).result =
        .error .unexpectedFailure ∧
      ((check_response sOnline (.ok 503) true false).state).isOnline = false) ∧
    (503 < 500 → (false = true → 503 < 400) →
      (check_response sOnline (.ok 503) true false).state = sOnline ∧
      (check_response sOnline (.ok 503) true false).trace = [] ∧
      (check_response sOnline (.ok 503) true false).result = .ok 503 ∧
      ((check_response sOnline (.ok 503) true false).loggedWarning = true ↔
        (300 ≤ 503 ∧ ¬(503 = 404 ∧ true = false)))) :=
  C5_check_response_classification sOnline 503 true false (fun _ => by decide)

/-- C1 at the failing input: the identity probe succeeds with a UUID
body, the root endpoint returned 404 and async_get_root mapped it to
the empty dict; try_uuid then subscripts the absent optional
ha_version field, so the version log line raises TypeError out of
try_uuid: the connection is not flipped online, the stream consumer is
not started, the connected callback is not invoked, and no retry is
scheduled either. This contradicts the claim that the connect step
still succeeds. -/
theorem C1_missing_optional_field_aborts_handshake :
    (try_uuid sHandshake (.ok "uuid-1") (.ok [])).2.2 = some .typeError ∧
    ((try_uuid sHandshake (.ok "uuid-1") (.ok [])).1).isOnline = false ∧
    Act.cbConnected ∉ (try_uuid sHandshake (.ok "uuid-1") (.ok [])).2.1 ∧
    Act.startSse ∉ (try_uuid sHandshake (.ok "uuid-1") (.ok [])).2.1 ∧
    Act.scheduleUuid ∉ (try_uuid sHandshake (.ok "uuid-1") (.ok [])).2.1 := by
  decide

/-- C8 counterexample: stopping an online connection closes the session
but never clears the online flag, so after stop_connection the state
has online true with no session and the invariant fails. -/
theorem C8_cex_stop_breaks_invariant :
    connInv sC8 = true ∧ connInv (stop_connection sC8).1 = false := by decide

/-- C8 amended: the connection-state invariant is preserved by the
offline transition and by the handshake step (whose success path needs
the session that start_connection installed), and by stop_connection
and start_connection when the connection is already offline; stopping
an online connection is exactly the case that breaks it. -/
theorem C8_amended_invariant_preserved (s : ConnState) (h : connInv s = true) :
    connInv (set_offline s).1 = true ∧
    (s.session.isSome = true →
      ∀ (u : Except PyErr String) (r : Except PyErr (List (String × PyVal))),
        connInv (try_uuid s u r).1 = true) ∧
    (s.isOnline = false → connInv (stop_connection s).1 = true) ∧
    (s.isOnline = false → ∀ (host : String) (port : Nat) (caCert : String),
      connInv (start_connection s host port caCert).1 = true) := by
  obtain ⟨onl, ro, base, sess, fu, fs, w, fl, ce⟩ := s
  refine ⟨?_, fun hsess u r => ?_, fun hoff => ?_, fun hoff host port caCert => ?_⟩
  · cases onl
    · cases fu <;> cases fs <;> simpa [set_offline] using h
    · cases fu <;> cases fs <;> simp [set_offline, connInv]
  · rcases u with _ | _ <;> rcases r with _ | root
    · simpa [try_uuid, connInv] using h
    · simpa [try_uuid, connInv] using h
    · simpa [try_uuid, connInv] using h
    · rcases hsub : subscript (lookupName root "ha_version") "ha_version" with e | v
      · simpa [try_uuid, hsub, connInv] using h
      · cases fs <;> simp [try_uuid, hsub, connInv, hsess] at h ⊢
  · subst hoff
    have hfs : fs = none := by
      cases fs
      · rfl
      · simp [connInv] at h
    subst hfs
    rcases fu with _ | ⟨fd⟩
    · cases sess <;> simp [stop_connection, connInv]
    · rcases fd with _ | _ <;> cases sess <;> simp [stop_connection, connInv]
  · subst hoff
    have hfs : fs = none := by
      cases fs
      · rfl
      · simp [connInv] at h
    subst hfs
    by_cases hh : host = ""
    · rcases fu with _ | ⟨fd⟩
      · cases sess <;> simp [start_connection, stop_connection, connInv, hh]
      · rcases fd with _ | _ <;> cases sess <;>
          simp [start_connection, stop_connection, connInv, hh]
    · rcases fu with _ | ⟨fd⟩
      · cases sess <;> simp [start_connection, stop_connection, connInv, hh]
      · rcases fd with _ | _ <;> cases sess <;>
          simp [start_connection, stop_connection, connInv, hh]

/-- Witness for C8 amended at a concrete invariant-satisfying state. -/
theorem C8_amended_witness :
    connInv (set_offline sOnline).1 = true ∧
    (sOnline.session.isSome = true →
      ∀ (u : Except PyErr String) (r : Except PyErr (List (String × PyVal))),
        connInv (try_uuid sOnline u r).1 = true) ∧
    (sOnline.isOnline = false → connInv (stop_connection sOnline).1 = true) ∧
    (sOnline.isOnline = false → ∀ (host : String) (port : Nat) (caCert : String),
      connInv (start_connection sOnline host port caCert).1 = true) :=
  C8_amended_invariant_preserved sOnline (by decide)

/-- C9 counterexample: after two failures and a success the attempts
waited 1, 2 and 4 seconds and the handshake ended online with the
backoff interval at 8, not back at the floor 1; the next reconnect
after a later disconnect therefore waits 8 seconds, not the floor. -/
theorem C9_cex_no_reset_after_success :
    ((runAttempts sC9 attemptsC9).1).isOnline = true ∧
    (runAttempts sC9 attemptsC9).2 = [1, 2, 4] ∧
    ((runAttempts sC9 attemptsC9).1).waitTime = 8 ∧
    sC9.wbFloor = 1 ∧
    Act.waited 8 ∈
      (try_uuid ((set_offline (runAttempts sC9 attemptsC9).1).1)
        (.error .disconnected) (.error .disconnected)).2.1 ∧
    Act.waited 1 ∉
      (try_uuid ((set_offline (runAttempts sC9 attemptsC9).1).1)
        (.error .disconnected) (.error .disconnected)).2.1 := by
  decide

/-- C9 amended: try_uuid never resets the backoff interval; after any
attempt, successful or not, the interval is exactly the doubled capped
value the wait call advanced it to, so the escalated interval persists
into the reconnect that follows a later disconnect. -/
theorem C9_amended_backoff_never_reset (s : ConnState)
    (u : Except PyErr String) (r : Except PyErr (List (String × PyVal))) :
    ((try_uuid s u r).1).waitTime = waiterAdvance s := by
  rcases u with _ | _ <;> rcases r with _ | root <;> simp [try_uuid]
  rcases hsub : subscript (lookupName root "ha_version") "ha_version" with e | v <;>
    cases s.futSse <;> simp [hsub]

end HA
